import Mathlib

/-!
Verification of the omi-audio-streaming server (src/main.go, AGFS-enabled
version) against its natural-language specification.

The Go program is shallowly embedded: bytes are `Nat` values below 256,
byte sequences are `List Nat`, machine-integer casts are explicit `% 2^32`,
and the effectful handler is modelled as a function from an oracle `World`
(recording the outcome of each OS / network primitive) to an observable
`HandlerOut` (HTTP status, list of primitive calls in program order, and
the bytes that ended up at each destination).
-/

namespace OmiAudio

/-- Little-endian encoding of the low 16 bits of `n`, as in Go's
`binary.LittleEndian.PutUint16`. -/
def le16 (n : Nat) : List Nat :=
  [n % 256, n / 256 % 256]

/-- Little-endian encoding of the low 32 bits of `n`, as in Go's
`binary.LittleEndian.PutUint32`. -/
def le32 (n : Nat) : List Nat :=
  [n % 256, n / 256 % 256, n / 65536 % 256, n / 16777216 % 256]

/-- `const numChannels = 1` (src/main.go line 169). -/
def numChannels : Nat := 1

/-- `const sampleRate = 16000` (src/main.go line 170). -/
def sampleRate : Nat := 16000

/-- `const bitsPerSample = 16` (src/main.go line 171). -/
def bitsPerSample : Nat := 16

/-- `createWAVHeader` (src/main.go lines 180-202): the 44-byte WAV header
for a payload of `dataLength` bytes.  Field by field in source order:
"RIFF", uint32(36+dataLength), "WAVE", "fmt ", 16, 1, numChannels,
sampleRate, byteRate, blockAlign, bitsPerSample, "data", uint32(dataLength). -/
def createWAVHeader (dataLength : Nat) : List Nat :=
  let byteRate := sampleRate * numChannels * bitsPerSample / 8
  let blockAlign := numChannels * bitsPerSample / 8
  [82, 73, 70, 70] ++ le32 (36 + dataLength) ++ [87, 65, 86, 69] ++
  [102, 109, 116, 32] ++ le32 16 ++ le16 1 ++ le16 numChannels ++
  le32 sampleRate ++ le32 byteRate ++ le16 blockAlign ++ le16 bitsPerSample ++
  [100, 97, 116, 97] ++ le32 dataLength

/-- Decode an unsigned little-endian 16-bit integer at offset `i`. -/
def readLE16 (bs : List Nat) (i : Nat) : Nat :=
  bs.getD i 0 + 256 * bs.getD (i + 1) 0

/-- Decode an unsigned little-endian 32-bit integer at offset `i`. -/
def readLE32 (bs : List Nat) (i : Nat) : Nat :=
  bs.getD i 0 + 256 * bs.getD (i + 1) 0 + 65536 * bs.getD (i + 2) 0 +
    16777216 * bs.getD (i + 3) 0

lemma le32_recompose (n : Nat) :
    n % 256 + 256 * (n / 256 % 256) + 65536 * (n / 65536 % 256) +
      16777216 * (n / 16777216 % 256) = n % 4294967296 := by
  omega

lemma createWAVHeader_eq (L : Nat) :
    createWAVHeader L =
      [82, 73, 70, 70,
       (36 + L) % 256, (36 + L) / 256 % 256, (36 + L) / 65536 % 256,
         (36 + L) / 16777216 % 256,
       87, 65, 86, 69,
       102, 109, 116, 32,
       16, 0, 0, 0,
       1, 0,
       1, 0,
       128, 62, 0, 0,
       0, 125, 0, 0,
       2, 0,
       16, 0,
       100, 97, 116, 97,
       L % 256, L / 256 % 256, L / 65536 % 256, L / 16777216 % 256] := rfl

/-- C1: for every non-negative payload length `L`, `createWAVHeader L` is
exactly 44 bytes: bytes 0-3 are ASCII "RIFF", bytes 4-7 the little-endian
uint32 of `36 + L`, bytes 8-11 "WAVE", bytes 12-15 "fmt ", then LE uint32 16,
LE uint16 1 (PCM), LE uint16 1 (channels), LE uint32 16000 (sample rate),
LE uint32 32000 (byte rate), LE uint16 2 (block align), LE uint16 16 (bits
per sample), bytes 36-39 "data", and bytes 40-43 the little-endian uint32 of
`L` (uint32 meaning reduction mod 2^32, as Go's `uint32(...)` cast does). -/
theorem createWAVHeader_layout (L : Nat) :
    (createWAVHeader L).length = 44 ∧
    (createWAVHeader L).take 4 = [82, 73, 70, 70] ∧
    readLE32 (createWAVHeader L) 4 = (36 + L) % 4294967296 ∧
    ((createWAVHeader L).drop 8).take 4 = [87, 65, 86, 69] ∧
    ((createWAVHeader L).drop 12).take 4 = [102, 109, 116, 32] ∧
    readLE32 (createWAVHeader L) 16 = 16 ∧
    readLE16 (createWAVHeader L) 20 = 1 ∧
    readLE16 (createWAVHeader L) 22 = 1 ∧
    readLE32 (createWAVHeader L) 24 = 16000 ∧
    readLE32 (createWAVHeader L) 28 = 32000 ∧
    readLE16 (createWAVHeader L) 32 = 2 ∧
    readLE16 (createWAVHeader L) 34 = 16 ∧
    ((createWAVHeader L).drop 36).take 4 = [100, 97, 116, 97] ∧
    readLE32 (createWAVHeader L) 40 = L % 4294967296 := by
  rw [createWAVHeader_eq]
  refine ⟨rfl, rfl, ?_, rfl, rfl, ?_, ?_, ?_, ?_, ?_, ?_, ?_, rfl, ?_⟩
  all_goals simp [readLE16, readLE32]
  all_goals omega

/-! ## WAV file assembly and a standard WAV reader (claim C4) -/

/-- The complete WAV file the handler materializes: the 44-byte header for
the payload length followed by the payload (src/main.go lines 287, 299-300). -/
def wavFile (payload : List Nat) : List Nat :=
  createWAVHeader payload.length ++ payload

/-- Modelled from the spec: a standard WAV reader (no such reader is part of
this repository).  It requires the RIFF/WAVE/fmt/data magic bytes at their
canonical offsets of a 44-byte PCM header, reads the little-endian 32-bit
data-chunk size at offset 40, and returns that many bytes of audio data. -/
def parseWAV (bs : List Nat) : Option (List Nat) :=
  match bs with
  | 82 :: 73 :: 70 :: 70 :: _r0 :: _r1 :: _r2 :: _r3 ::
    87 :: 65 :: 86 :: 69 ::
    102 :: 109 :: 116 :: 32 :: _f0 :: _f1 :: _f2 :: _f3 ::
    _t0 :: _t1 :: _c0 :: _c1 :: _s0 :: _s1 :: _s2 :: _s3 ::
    _b0 :: _b1 :: _b2 :: _b3 :: _a0 :: _a1 :: _p0 :: _p1 ::
    100 :: 97 :: 116 :: 97 :: d0 :: d1 :: d2 :: d3 :: rest =>
      some (rest.take (d0 + 256 * d1 + 65536 * d2 + 16777216 * d3))
  | _ => none

lemma wavFile_cons (p : List Nat) :
    wavFile p =
      82 :: 73 :: 70 :: 70 ::
      ((36 + p.length) % 256) :: ((36 + p.length) / 256 % 256) ::
        ((36 + p.length) / 65536 % 256) :: ((36 + p.length) / 16777216 % 256) ::
      87 :: 65 :: 86 :: 69 ::
      102 :: 109 :: 116 :: 32 :: 16 :: 0 :: 0 :: 0 ::
      1 :: 0 :: 1 :: 0 :: 128 :: 62 :: 0 :: 0 ::
      0 :: 125 :: 0 :: 0 :: 2 :: 0 :: 16 :: 0 ::
      100 :: 97 :: 116 :: 97 ::
      (p.length % 256) :: (p.length / 256 % 256) :: (p.length / 65536 % 256) ::
        (p.length / 16777216 % 256) :: p := by
  rw [wavFile, createWAVHeader_eq]
  rfl

lemma parseWAV_wavFile (p : List Nat) :
    parseWAV (wavFile p) = some (p.take (p.length % 4294967296)) := by
  rw [wavFile_cons]
  show some (p.take (p.length % 256 + 256 * (p.length / 256 % 256) +
    65536 * (p.length / 65536 % 256) + 16777216 * (p.length / 16777216 % 256))) = _
  rw [le32_recompose]

/-- C4 (amended): for every payload of length less than 2^32 (the range
representable in the 32-bit data-size field), concatenating
`createWAVHeader payload.length` with the payload yields a byte sequence a
standard WAV reader decodes back to exactly the payload; in particular the
empty payload yields a valid 44-byte-only WAV file with zero audio frames. -/
theorem wav_roundtrip (p : List Nat) (h : p.length < 4294967296) :
    parseWAV (wavFile p) = some p ∧ (wavFile p).length = 44 + p.length := by
  refine ⟨?_, ?_⟩
  · rw [parseWAV_wavFile, Nat.mod_eq_of_lt h, List.take_length]
  · rw [wavFile, List.length_append]
    have : (createWAVHeader p.length).length = 44 := by
      rw [createWAVHeader_eq]; rfl
    omega

/-- C4 witness: the empty payload round-trips to a valid 44-byte-only WAV
file decoding to zero audio frames. -/
theorem wav_roundtrip_witness :
    ([] : List Nat).length < 4294967296 ∧
      (parseWAV (wavFile []) = some [] ∧ (wavFile ([] : List Nat)).length = 44 + ([] : List Nat).length) :=
  ⟨by decide, wav_roundtrip [] (by decide)⟩

/-- C4 counterexample: for the 2^32-byte payload of all-1 bytes, the 32-bit
data-size field wraps to 0, so a standard WAV reader decodes the assembled
file to the empty payload, not the original payload; the round-trip claim
fails as stated for payloads of length 2^32 or more. -/
theorem wav_roundtrip_cex :
    parseWAV (wavFile (List.replicate 4294967296 1)) ≠
      some (List.replicate 4294967296 1) := by
  rw [parseWAV_wavFile]
  intro h
  have h2 := Option.some.inj h
  rw [List.length_replicate, Nat.mod_self, List.take_zero] at h2
  have h3 := congrArg List.length h2
  rw [List.length_replicate] at h3
  exact absurd h3.symm (by norm_num)

/-! ## Storage layer and HTTP handler

The effectful functions `saveFileLocally`, `uploadToAGFS` and
`handlePostAudio` (src/main.go lines 204-232, 234-259, 261-337) are embedded
as functions from an oracle (the outcome each OS / network primitive would
have) to the result Go produces, together with the ordered list of primitive
calls the code performs and the bytes that reach each destination. -/

/-- The wrapped errors `saveFileLocally` can return, one per `fmt.Errorf`
site (src/main.go lines 207, 216, 222, 227). -/
inductive LocalErr where
  | mkdirFailed
  | openSrcFailed
  | createDestFailed
  | copyFailed
deriving DecidableEq

/-- The contextual message each `saveFileLocally` error is wrapped with. -/
def localErrMsg : LocalErr → String
  | .mkdirFailed => "failed to create storage directory"
  | .openSrcFailed => "failed to open source file"
  | .createDestFailed => "failed to create destination file"
  | .copyFailed => "failed to copy file"

/-- The wrapped errors `uploadToAGFS` can return (src/main.go lines 236,
242, 254). -/
inductive AgfsErr where
  | clientNotInitialized
  | readFileFailed
  | writeFailed
deriving DecidableEq

/-- The message each `uploadToAGFS` error carries. -/
def agfsErrMsg : AgfsErr → String
  | .clientNotInitialized => "AGFS client not initialized"
  | .readFileFailed => "failed to read file"
  | .writeFailed => "failed to upload to AGFS"

/-- Modelled from the spec: Go's `filepath.Join` (standard library, not part
of this repository).  The spec treats it as an abstract `join(dir, name)`;
modelled as inserting the path separator, without Go's Clean normalization. -/
def filepathJoin (dir name : String) : String :=
  dir ++ "/" ++ name

/-- One OS / network primitive call, recorded in program order. -/
inductive Call where
  | logLine (s : String)
  | osCreateTemp (path : String)
  | tempWrite
  | osReadFile (path : String)
  | agfsWrite (path : String)
  | mkdirAll (dir : String)
  | osOpen (path : String)
  | osCreate (path : String)
  | ioCopy
deriving DecidableEq

/-- Oracle for the four fallible filesystem steps of `saveFileLocally`. -/
structure FsOracle where
  mkdirOk : Bool
  openSrcOk : Bool
  createDestOk : Bool
  copyOk : Bool
deriving DecidableEq

/-- All four local filesystem steps succeed. -/
def FsOracle.allOk (o : FsOracle) : Bool :=
  o.mkdirOk && o.openSrcOk && o.createDestOk && o.copyOk

/-- Result of `saveFileLocally`: the returned error (`none` = nil), the
primitive calls made, and, on success, the destination path with the bytes
copied there. -/
structure SaveResult where
  err : Option LocalErr
  calls : List Call
  saved : Option (String × List Nat)
deriving DecidableEq

/-- `saveFileLocally` (src/main.go lines 204-232): create the storage
directory, open the temp file, create `storageDir/fileName`, copy; stop at
the first failing step with its wrapped error. -/
def saveFileLocally (o : FsOracle) (storageDir fileName tempFilePath : String)
    (tempContents : List Nat) : SaveResult :=
  if !o.mkdirOk then
    { err := some .mkdirFailed, calls := [.mkdirAll storageDir], saved := none }
  else
    let destPath := filepathJoin storageDir fileName
    if !o.openSrcOk then
      { err := some .openSrcFailed,
        calls := [.mkdirAll storageDir, .osOpen tempFilePath], saved := none }
    else if !o.createDestOk then
      { err := some .createDestFailed,
        calls := [.mkdirAll storageDir, .osOpen tempFilePath, .osCreate destPath],
        saved := none }
    else if !o.copyOk then
      { err := some .copyFailed,
        calls := [.mkdirAll storageDir, .osOpen tempFilePath, .osCreate destPath,
          .ioCopy],
        saved := none }
    else
      { err := none,
        calls := [.mkdirAll storageDir, .osOpen tempFilePath, .osCreate destPath,
          .ioCopy],
        saved := some (destPath, tempContents) }

/-- Result of `uploadToAGFS`: the returned error (`none` = nil), the
primitive calls made, and, on success, the remote path with the bytes
written there. -/
structure UploadResult where
  err : Option AgfsErr
  calls : List Call
  remoteSaved : Option (String × List Nat)
deriving DecidableEq

/-- `uploadToAGFS` (src/main.go lines 234-259): guard on the nil client,
read the temp file, compute the full remote path (prefix joined with the
filename when a prefix is configured, else the bare filename), and write. -/
def uploadToAGFS (clientConfigured readOk writeOk : Bool)
    (agfsUploadPath : String) (filePath fileName : String)
    (tempContents : List Nat) : UploadResult :=
  if !clientConfigured then
    { err := some .clientNotInitialized, calls := [], remoteSaved := none }
  else if !readOk then
    { err := some .readFileFailed, calls := [.osReadFile filePath],
      remoteSaved := none }
  else
    let fullPath :=
      if agfsUploadPath ≠ "" then filepathJoin agfsUploadPath fileName
      else fileName
    if !writeOk then
      { err := some .writeFailed,
        calls := [.osReadFile filePath, .agfsWrite fullPath], remoteSaved := none }
    else
      { err := none, calls := [.osReadFile filePath, .agfsWrite fullPath],
        remoteSaved := some (fullPath, tempContents) }

/-- `storageDir := os.Getenv("AUDIO_STORAGE_DIR"); if storageDir == "" {
storageDir = "./audio_files" }` — evaluated inside the handler, per request
(src/main.go lines 308-311 and 323-326). -/
def getenvStorageDir (envStorageDir : String) : String :=
  if envStorageDir = "" then "./audio_files" else envStorageDir

/-- One request: the body as the HTTP layer delivers it (`none` = read
error) and the two query parameters. -/
structure Request where
  body : Option (List Nat)
  sampleRateParam : String
  uid : String
deriving DecidableEq

/-- Oracle for one run of the handler: the process configuration (AGFS
client and upload path, set once in `main`), the request-time value of
`AUDIO_STORAGE_DIR`, the temp directory, the wall-clock-derived filename,
and the outcome of each fallible primitive.  `headerWriteN` / `bodyWriteN`
are the byte counts the two ignored `tempFile.Write` calls actually wrote
(a short count models a failed or short write). -/
structure World where
  agfsConfigured : Bool
  agfsUploadPath : String
  agfsReadOk : Bool
  agfsWriteOk : Bool
  fs : FsOracle
  envStorageDir : String
  tempDir : String
  tempCreateOk : Bool
  headerWriteN : Nat
  bodyWriteN : Nat
  filename : String
deriving DecidableEq

/-- Observable outcome of one handler run. -/
structure HandlerOut where
  status : Nat
  respBody : String
  calls : List Call
  wavHeader : Option (List Nat)
  tempContents : Option (List Nat)
  remoteErr : Option AgfsErr
  localSaved : Option (String × List Nat)
  remoteSaved : Option (String × List Nat)
deriving DecidableEq

/-- `handlePostAudio` (src/main.go lines 261-337): log the query params,
read the body (400 on failure), build the header, create and write the temp
file (500 on create failure; both write results are discarded), then route:
if the AGFS client is configured try the remote upload, falling back to one
local save on failure (500 only if that also fails); otherwise save locally
(500 on failure); reply 200 naming the generated file. -/
def handlePostAudio (w : World) (r : Request) : HandlerOut :=
  let logCalls : List Call := [.logLine r.uid, .logLine r.sampleRateParam]
  match r.body with
  | none =>
    { status := 400, respBody := "Failed to read request body",
      calls := logCalls, wavHeader := none, tempContents := none,
      remoteErr := none, localSaved := none, remoteSaved := none }
  | some body =>
    let filename := w.filename
    let tempFilePath := filepathJoin w.tempDir filename
    let header := createWAVHeader body.length
    if !w.tempCreateOk then
      { status := 500, respBody := "Failed to create temp file",
        calls := logCalls ++ [.osCreateTemp tempFilePath],
        wavHeader := some header, tempContents := none, remoteErr := none,
        localSaved := none, remoteSaved := none }
    else
      let tempContents := header.take w.headerWriteN ++ body.take w.bodyWriteN
      let preCalls := logCalls ++ [.osCreateTemp tempFilePath, .tempWrite, .tempWrite]
      if w.agfsConfigured then
        let up := uploadToAGFS w.agfsConfigured w.agfsReadOk w.agfsWriteOk
          w.agfsUploadPath tempFilePath filename tempContents
        match up.err with
        | some e =>
          let storageDir := getenvStorageDir w.envStorageDir
          let sv := saveFileLocally w.fs storageDir filename tempFilePath tempContents
          match sv.err with
          | some _ =>
            { status := 500, respBody := "Failed to save file",
              calls := preCalls ++ up.calls ++ sv.calls,
              wavHeader := some header, tempContents := some tempContents,
              remoteErr := some e, localSaved := sv.saved, remoteSaved := none }
          | none =>
            { status := 200,
              respBody := "Audio bytes received and saved as " ++ filename,
              calls := preCalls ++ up.calls ++ sv.calls,
              wavHeader := some header, tempContents := some tempContents,
              remoteErr := some e, localSaved := sv.saved, remoteSaved := none }
        | none =>
          { status := 200,
            respBody := "Audio bytes received and saved as " ++ filename,
            calls := preCalls ++ up.calls,
            wavHeader := some header, tempContents := some tempContents,
            remoteErr := none, localSaved := none, remoteSaved := up.remoteSaved }
      else
        let storageDir := getenvStorageDir w.envStorageDir
        let sv := saveFileLocally w.fs storageDir filename tempFilePath tempContents
        match sv.err with
        | some _ =>
          { status := 500, respBody := "Failed to save file to local storage",
            calls := preCalls ++ sv.calls,
            wavHeader := some header, tempContents := some tempContents,
            remoteErr := none, localSaved := sv.saved, remoteSaved := none }
        | none =>
          { status := 200,
            respBody := "Audio bytes received and saved as " ++ filename,
            calls := preCalls ++ sv.calls,
            wavHeader := some header, tempContents := some tempContents,
            remoteErr := none, localSaved := sv.saved, remoteSaved := none }

/-- A `mkdirAll` call marks the start of one `saveFileLocally` attempt (its
unconditional first step). -/
def isLocalSaveStart : Call → Bool
  | .mkdirAll _ => true
  | _ => false

/-- Number of local-save attempts recorded in a call list. -/
def localAttempts (cs : List Call) : Nat :=
  (cs.filter isLocalSaveStart).length

/-- C3: when the AGFS client is configured and the remote write succeeds
(file read and AGFS write both succeed), the handler makes no local-save
attempt — its calls are exactly the log lines, the temp-file operations, and
the remote read and write, with no `MkdirAll`, `Open`, `Create` or copy in
the storage directory — nothing is saved locally, and the response is 200. -/
theorem remote_success_skips_local (w : World) (r : Request) (b : List Nat)
    (hb : r.body = some b) (hcfg : w.agfsConfigured = true)
    (htmp : w.tempCreateOk = true) (hro : w.agfsReadOk = true)
    (hwo : w.agfsWriteOk = true) :
    (handlePostAudio w r).status = 200 ∧
    localAttempts (handlePostAudio w r).calls = 0 ∧
    (handlePostAudio w r).localSaved = none ∧
    (handlePostAudio w r).calls =
      [.logLine r.uid, .logLine r.sampleRateParam,
       .osCreateTemp (filepathJoin w.tempDir w.filename), .tempWrite, .tempWrite,
       .osReadFile (filepathJoin w.tempDir w.filename),
       .agfsWrite (if w.agfsUploadPath ≠ "" then
         filepathJoin w.agfsUploadPath w.filename else w.filename)] ∧
    (handlePostAudio w r).remoteSaved =
      some ((if w.agfsUploadPath ≠ "" then
          filepathJoin w.agfsUploadPath w.filename else w.filename),
        (createWAVHeader b.length).take w.headerWriteN ++ b.take w.bodyWriteN) := by
  obtain ⟨body, sr, uid⟩ := r
  obtain ⟨cfg, up, ro, wo, fs, env, td, tc, hn, bn, fn⟩ := w
  simp only at hb hcfg htmp hro hwo
  subst hb hcfg htmp hro hwo
  simp [handlePostAudio, uploadToAGFS, localAttempts, isLocalSaveStart]

/-- C3 witness: a concrete configured world whose remote write succeeds. -/
theorem remote_success_skips_local_witness :
    (handlePostAudio
      { agfsConfigured := true, agfsUploadPath := "pre", agfsReadOk := true,
        agfsWriteOk := true,
        fs := { mkdirOk := true, openSrcOk := true, createDestOk := true, copyOk := true },
        envStorageDir := "", tempDir := "tmp", tempCreateOk := true,
        headerWriteN := 44, bodyWriteN := 1, filename := "f.wav" }
      { body := some [7], sampleRateParam := "8000", uid := "u" }).status = 200 ∧
    localAttempts (handlePostAudio
      { agfsConfigured := true, agfsUploadPath := "pre", agfsReadOk := true,
        agfsWriteOk := true,
        fs := { mkdirOk := true, openSrcOk := true, createDestOk := true, copyOk := true },
        envStorageDir := "", tempDir := "tmp", tempCreateOk := true,
        headerWriteN := 44, bodyWriteN := 1, filename := "f.wav" }
      { body := some [7], sampleRateParam := "8000", uid := "u" }).calls = 0 :=
  ⟨(remote_success_skips_local _ _ [7] rfl rfl rfl rfl rfl).1,
   (remote_success_skips_local _ _ [7] rfl rfl rfl rfl rfl).2.1⟩

/-- A fully working local filesystem oracle, for concrete runs. -/
def allOkFs : FsOracle :=
  { mkdirOk := true, openSrcOk := true, createDestOk := true, copyOk := true }

/-- A concrete request with a one-byte body, for concrete runs. -/
def sampleReq : Request :=
  { body := some [7], sampleRateParam := "8000", uid := "u" }

/-- A concrete world: AGFS configured, remote write fails, local disk fine. -/
def fallbackWorld : World :=
  { agfsConfigured := true, agfsUploadPath := "", agfsReadOk := true,
    agfsWriteOk := false, fs := allOkFs, envStorageDir := "", tempDir := "tmp",
    tempCreateOk := true, headerWriteN := 44, bodyWriteN := 1,
    filename := "f.wav" }

/-- C2: when the AGFS client is configured and the remote write fails
(either reading the temp file or the AGFS write fails), the handler absorbs
the remote failure and makes exactly one local-save attempt; if that local
save succeeds the response is 200 and the file lands in the storage
directory under the generated filename, so a remote-write failure alone is
never surfaced to the client. -/
theorem remote_failure_falls_back (w : World) (r : Request) (b : List Nat)
    (hb : r.body = some b) (hcfg : w.agfsConfigured = true)
    (htmp : w.tempCreateOk = true)
    (hfail : w.agfsReadOk = false ∨ w.agfsWriteOk = false) :
    localAttempts (handlePostAudio w r).calls = 1 ∧
    (w.fs.allOk = true →
      (handlePostAudio w r).status = 200 ∧
      (handlePostAudio w r).localSaved =
        some (filepathJoin (getenvStorageDir w.envStorageDir) w.filename,
          (createWAVHeader b.length).take w.headerWriteN ++ b.take w.bodyWriteN)) := by
  obtain ⟨body, sr, uid⟩ := r
  obtain ⟨cfg, up, ro, wo, fs, env, td, tc, hn, bn, fn⟩ := w
  obtain ⟨mk, op, cr, cp⟩ := fs
  simp only at hb hcfg htmp hfail
  subst hb hcfg htmp
  cases ro <;> cases wo <;> cases mk <;> cases op <;> cases cr <;> cases cp <;>
    simp_all [handlePostAudio, uploadToAGFS, saveFileLocally, FsOracle.allOk,
      localAttempts, isLocalSaveStart]

/-- C2 witness: a concrete configured world whose AGFS write fails and
whose local filesystem works; the fallback saves the file and replies 200. -/
theorem remote_failure_falls_back_witness :
    localAttempts (handlePostAudio fallbackWorld sampleReq).calls = 1 ∧
    (handlePostAudio fallbackWorld sampleReq).status = 200 :=
  ⟨(remote_failure_falls_back fallbackWorld sampleReq [7] rfl rfl rfl (Or.inr rfl)).1,
   ((remote_failure_falls_back fallbackWorld sampleReq [7] rfl rfl rfl (Or.inr rfl)).2 rfl).1⟩

/-- C5: whenever `uploadToAGFS` reaches the remote write (client configured,
temp file read), the path it writes to is `join(uploadPathPrefix, fileName)`
when the configured prefix is non-empty, and exactly `fileName` when the
prefix is empty. -/
theorem upload_path_selection (wo : Bool) (pre fp fn : String) (c : List Nat) :
    (uploadToAGFS true true wo pre fp fn c).calls =
      [.osReadFile fp,
       .agfsWrite (if pre = "" then fn else filepathJoin pre fn)] := by
  by_cases h : pre = "" <;> cases wo <;> simp [uploadToAGFS, h]

/-- C6: the four failure modes of `saveFileLocally` — directory creation,
source open, destination create, copy — produce four distinct wrapped
errors (characterized exactly by which step fails first, with pairwise
distinct messages), and when the local save fails while it is the path of
last resort (no remote configured, or the remote upload already failed) the
handler replies 500. -/
theorem local_save_errors_distinct_and_terminal (w : World) (r : Request)
    (b : List Nat) (o : FsOracle) (d f t : String) (c : List Nat)
    (hb : r.body = some b) (htmp : w.tempCreateOk = true)
    (hlast : w.agfsConfigured = false ∨ w.agfsReadOk = false ∨
      w.agfsWriteOk = false)
    (hfail : w.fs.allOk = false) :
    (((saveFileLocally o d f t c).err = some .mkdirFailed ↔
        o.mkdirOk = false) ∧
     ((saveFileLocally o d f t c).err = some .openSrcFailed ↔
        o.mkdirOk = true ∧ o.openSrcOk = false) ∧
     ((saveFileLocally o d f t c).err = some .createDestFailed ↔
        o.mkdirOk = true ∧ o.openSrcOk = true ∧ o.createDestOk = false) ∧
     ((saveFileLocally o d f t c).err = some .copyFailed ↔
        o.mkdirOk = true ∧ o.openSrcOk = true ∧ o.createDestOk = true ∧
          o.copyOk = false)) ∧
    (localErrMsg .mkdirFailed ≠ localErrMsg .openSrcFailed ∧
     localErrMsg .mkdirFailed ≠ localErrMsg .createDestFailed ∧
     localErrMsg .mkdirFailed ≠ localErrMsg .copyFailed ∧
     localErrMsg .openSrcFailed ≠ localErrMsg .createDestFailed ∧
     localErrMsg .openSrcFailed ≠ localErrMsg .copyFailed ∧
     localErrMsg .createDestFailed ≠ localErrMsg .copyFailed) ∧
    (handlePostAudio w r).status = 500 := by
  refine ⟨?_, by decide, ?_⟩
  · obtain ⟨mk, op, cr, cp⟩ := o
    cases mk <;> cases op <;> cases cr <;> cases cp <;>
      simp [saveFileLocally]
  · obtain ⟨body, sr, uid⟩ := r
    obtain ⟨cfg, up, ro, wo, fs, env, td, tc, hn, bn, fn⟩ := w
    obtain ⟨mk, op, cr, cp⟩ := fs
    simp only at hb htmp hlast hfail
    subst hb htmp
    cases cfg <;> cases ro <;> cases wo <;>
      cases mk <;> cases op <;> cases cr <;> cases cp <;>
      simp_all [handlePostAudio, uploadToAGFS, saveFileLocally, FsOracle.allOk]

/-- A concrete world: no remote configured and directory creation fails. -/
def mkdirFailWorld : World :=
  { agfsConfigured := false, agfsUploadPath := "", agfsReadOk := true,
    agfsWriteOk := true,
    fs := { mkdirOk := false, openSrcOk := true, createDestOk := true,
            copyOk := true },
    envStorageDir := "", tempDir := "tmp", tempCreateOk := true,
    headerWriteN := 44, bodyWriteN := 1, filename := "f.wav" }

/-- C6 witness: with no remote configured and directory creation failing,
the handler replies 500. -/
theorem local_save_errors_witness :
    (handlePostAudio mkdirFailWorld sampleReq).status = 500 :=
  (local_save_errors_distinct_and_terminal mkdirFailWorld sampleReq [7]
    { mkdirOk := false, openSrcOk := true, createDestOk := true, copyOk := true }
    "d" "f" "t" [] rfl rfl (Or.inl rfl) rfl).2.2

set_option maxHeartbeats 1000000 in
/-- C7: two requests with the same body but different `sample_rate` query
parameters produce byte-identical WAV headers and identical statuses, temp
contents and stored bytes; the channel-count, sample-rate and
bits-per-sample header fields are the constants 1, 16000 and 16 for every
payload length, and the `sample_rate` parameter is only logged. -/
theorem sample_rate_not_used (w : World) (b : Option (List Nat))
    (sr1 sr2 u : String) :
    (∀ L : Nat, readLE16 (createWAVHeader L) 22 = 1 ∧
      readLE32 (createWAVHeader L) 24 = 16000 ∧
      readLE16 (createWAVHeader L) 34 = 16) ∧
    ((handlePostAudio w { body := b, sampleRateParam := sr1, uid := u }).wavHeader,
     (handlePostAudio w { body := b, sampleRateParam := sr1, uid := u }).status,
     (handlePostAudio w { body := b, sampleRateParam := sr1, uid := u }).tempContents,
     (handlePostAudio w { body := b, sampleRateParam := sr1, uid := u }).localSaved,
     (handlePostAudio w { body := b, sampleRateParam := sr1, uid := u }).remoteSaved) =
    ((handlePostAudio w { body := b, sampleRateParam := sr2, uid := u }).wavHeader,
     (handlePostAudio w { body := b, sampleRateParam := sr2, uid := u }).status,
     (handlePostAudio w { body := b, sampleRateParam := sr2, uid := u }).tempContents,
     (handlePostAudio w { body := b, sampleRateParam := sr2, uid := u }).localSaved,
     (handlePostAudio w { body := b, sampleRateParam := sr2, uid := u }).remoteSaved) ∧
    (handlePostAudio w { body := b, sampleRateParam := sr1, uid := u }).calls.take 2 =
      [.logLine u, .logLine sr1] := by
  refine ⟨?_, ?_, ?_⟩
  · intro L
    rw [createWAVHeader_eq]
    refine ⟨rfl, ?_, rfl⟩
    simp [readLE32]
  all_goals
    obtain ⟨cfg, up, ro, wo, fs, env, td, tc, hn, bn, fn⟩ := w
    obtain ⟨mk, op, cr, cp⟩ := fs
    cases b <;> cases cfg <;> cases ro <;> cases wo <;> cases tc <;>
      cases mk <;> cases op <;> cases cr <;> cases cp <;> rfl

/-- A concrete world: no remote, env var as it was at startup. -/
def startupEnvWorld : World :=
  { agfsConfigured := false, agfsUploadPath := "", agfsReadOk := true,
    agfsWriteOk := true, fs := allOkFs, envStorageDir := "startup_dir",
    tempDir := "tmp", tempCreateOk := true, headerWriteN := 44,
    bodyWriteN := 1, filename := "f.wav" }

/-- The same process later, after `AUDIO_STORAGE_DIR` changed. -/
def laterEnvWorld : World :=
  { startupEnvWorld with envStorageDir := "request_dir" }

/-- C8 counterexample: the handler calls `os.Getenv("AUDIO_STORAGE_DIR")`
inside the request path, so a request handled when the environment variable
holds `"request_dir"` saves into `"request_dir"`, not into the
`"startup_dir"` value that was in effect at startup — the directory is
re-resolved per request, refuting resolved-once-at-startup as stated. -/
theorem storage_dir_startup_cex :
    (handlePostAudio laterEnvWorld sampleReq).localSaved ≠
      (handlePostAudio startupEnvWorld sampleReq).localSaved ∧
    (handlePostAudio laterEnvWorld sampleReq).calls.filter isLocalSaveStart =
      [.mkdirAll "request_dir"] := by
  refine ⟨?_, by rfl⟩
  intro h
  simp only [handlePostAudio, saveFileLocally, laterEnvWorld, startupEnvWorld,
    allOkFs, sampleReq, getenvStorageDir, filepathJoin] at h
  exact absurd (congrArg (fun o => (Option.map Prod.fst o).getD "") h) (by decide)

/-- C8 (amended): the local storage directory is resolved inside the
handler on every request — `AUDIO_STORAGE_DIR` read at request-handling
time, defaulting to `./audio_files` when empty — so each request uses the
environment value in effect when it is handled (which coincides with the
startup value only as long as the process environment is unchanged). -/
theorem storage_dir_per_request (w : World) (r : Request) (b : List Nat)
    (hb : r.body = some b) (hcfg : w.agfsConfigured = false)
    (htmp : w.tempCreateOk = true) (hok : w.fs.allOk = true) :
    (handlePostAudio w r).localSaved =
      some (filepathJoin (getenvStorageDir w.envStorageDir) w.filename,
        (createWAVHeader b.length).take w.headerWriteN ++ b.take w.bodyWriteN) ∧
    getenvStorageDir "" = "./audio_files" ∧
    ∀ s : String, s ≠ "" → getenvStorageDir s = s := by
  refine ⟨?_, by simp [getenvStorageDir], fun s hs => by simp [getenvStorageDir, hs]⟩
  obtain ⟨body, sr, uid⟩ := r
  obtain ⟨cfg, up, ro, wo, ⟨mk, op, cr, cp⟩, env, td, tc, hn, bn, fn⟩ := w
  simp only at hb hcfg htmp hok
  subst hb hcfg htmp
  cases mk <;> cases op <;> cases cr <;> cases cp <;>
    simp_all [handlePostAudio, saveFileLocally, FsOracle.allOk]

/-- C8 witness: with `AUDIO_STORAGE_DIR` holding `"request_dir"` when the
request is handled, the file is saved under `request_dir`. -/
theorem storage_dir_per_request_witness :
    (handlePostAudio laterEnvWorld sampleReq).localSaved =
      some (filepathJoin (getenvStorageDir "request_dir") "f.wav",
        (createWAVHeader 1).take 44 ++ [7].take 1) :=
  (storage_dir_per_request laterEnvWorld sampleReq [7] rfl rfl rfl rfl).1

/-- C9: `uploadToAGFS` guards the nil client — called with no client
configured it returns the error "AGFS client not initialized" without
touching the filesystem or the network — and, since the handler only calls
it after checking the client is configured, that error branch is
unreachable: no handler run ever observes `clientNotInitialized`. -/
theorem agfs_nil_guard :
    (∀ (ro wo : Bool) (pre fp fn : String) (c : List Nat),
      (uploadToAGFS false ro wo pre fp fn c).err = some .clientNotInitialized ∧
      (uploadToAGFS false ro wo pre fp fn c).calls = []) ∧
    agfsErrMsg .clientNotInitialized = "AGFS client not initialized" ∧
    ∀ (w : World) (r : Request),
      (handlePostAudio w r).remoteErr ≠ some .clientNotInitialized := by
  refine ⟨fun ro wo pre fp fn c => by simp [uploadToAGFS], rfl, ?_⟩
  intro w r
  have upkey : ∀ (ro wo : Bool) (p fp fn : String) (c : List Nat),
      (uploadToAGFS true ro wo p fp fn c).err ≠ some .clientNotInitialized := by
    intro ro wo p fp fn c
    cases ro <;> cases wo <;> simp [uploadToAGFS]
  simp only [handlePostAudio]
  split
  · simp
  · split
    · simp
    · split
      · rename_i hcfg
        rw [hcfg]
        split
        · rename_i e heq
          split <;>
            (simp only [ne_eq, Option.some.injEq]
             intro hh
             exact upkey _ _ _ _ _ _ (hh ▸ heq))
        · simp
      · split <;> simp

/-- C9 witness: the guard error at a concrete call, and a concrete handler
run (configured, remote write failing) that never sees it. -/
theorem agfs_nil_guard_witness :
    (uploadToAGFS false true true "" "t" "f" []).err =
      some .clientNotInitialized ∧
    (handlePostAudio fallbackWorld sampleReq).remoteErr ≠
      some .clientNotInitialized :=
  ⟨(agfs_nil_guard.1 true true "" "t" "f" []).1,
   agfs_nil_guard.2.2 fallbackWorld sampleReq⟩

set_option maxHeartbeats 1000000 in
/-- C10: the handler discards the results of the two `tempFile.Write` calls
— its status and its sequence of primitive calls are identical no matter how
many bytes those writes actually wrote — and consequently, when both writes
write nothing while everything else succeeds (no remote configured, local
disk fine), the handler still replies 200 while the file stored locally is
empty instead of the non-empty intended WAV file. -/
theorem temp_write_results_discarded (w : World) (r : Request) (b : List Nat)
    (n1 m1 n2 m2 : Nat) :
    ((handlePostAudio { w with headerWriteN := n1, bodyWriteN := m1 } r).status,
     (handlePostAudio { w with headerWriteN := n1, bodyWriteN := m1 } r).calls) =
    ((handlePostAudio { w with headerWriteN := n2, bodyWriteN := m2 } r).status,
     (handlePostAudio { w with headerWriteN := n2, bodyWriteN := m2 } r).calls) ∧
    (r.body = some b → w.agfsConfigured = false → w.tempCreateOk = true →
      w.fs.allOk = true → w.headerWriteN = 0 → w.bodyWriteN = 0 →
      (handlePostAudio w r).status = 200 ∧
      (handlePostAudio w r).localSaved =
        some (filepathJoin (getenvStorageDir w.envStorageDir) w.filename, []) ∧
      wavFile b ≠ []) := by
  constructor
  · obtain ⟨body, sr, uid⟩ := r
    obtain ⟨cfg, up, ro, wo, ⟨mk, op, cr, cp⟩, env, td, tc, hn, bn, fn⟩ := w
    cases body <;> cases cfg <;> cases ro <;> cases wo <;> cases tc <;>
      cases mk <;> cases op <;> cases cr <;> cases cp <;> rfl
  · intro hb hcfg htmp hok hn0 hm0
    have hwf : wavFile b ≠ [] := by
      rw [wavFile, createWAVHeader_eq]
      simp
    refine ?_
    obtain ⟨body, sr, uid⟩ := r
    obtain ⟨cfg, up, ro, wo, ⟨mk, op, cr, cp⟩, env, td, tc, hn, bn, fn⟩ := w
    simp only at hb hcfg htmp hok hn0 hm0
    subst hb hcfg htmp hn0 hm0
    cases mk <;> cases op <;> cases cr <;> cases cp <;>
      simp_all [handlePostAudio, saveFileLocally, FsOracle.allOk]

/-- A concrete world: no remote, local disk fine, both temp-file writes
write zero bytes. -/
def shortWriteWorld : World :=
  { agfsConfigured := false, agfsUploadPath := "", agfsReadOk := true,
    agfsWriteOk := true, fs := allOkFs, envStorageDir := "", tempDir := "tmp",
    tempCreateOk := true, headerWriteN := 0, bodyWriteN := 0,
    filename := "f.wav" }

/-- C10 witness: with both temp-file writes writing nothing, the handler
replies 200 and the locally stored file is empty. -/
theorem temp_write_results_discarded_witness :
    (handlePostAudio shortWriteWorld sampleReq).status = 200 ∧
    (handlePostAudio shortWriteWorld sampleReq).localSaved =
      some (filepathJoin (getenvStorageDir "") "f.wav", []) :=
  ⟨((temp_write_results_discarded shortWriteWorld sampleReq [7] 0 0 0 0).2
      rfl rfl rfl rfl rfl rfl).1,
   ((temp_write_results_discarded shortWriteWorld sampleReq [7] 0 0 0 0).2
      rfl rfl rfl rfl rfl rfl).2.1⟩

end OmiAudio
